import Mathlib

/-!
Verification of the AI Music Cover Creator script (music.py).

The file shallowly embeds the pure decision logic of the script:

* the lyrics formatting helper (format_lyrics_for_minimax, lines 119-125);
* the long-filename renaming step inside download_audio_from_youtube
  (lines 44-51); the md5 hex digest is computed by the external hashlib
  library, so it is taken as a function parameter;
* the response handling of MusicProcessor.generate_music (lines 77-117);
  the HTTP transport of the requests library is external and is modelled
  as an oracle mapping the outgoing payload to an outcome;
* the step-state machine of main (lines 138-241): the session state record,
  the Step1 manual-id confirmation, the Step1 vocal-extraction action, the
  Next Step buttons, the Step2 instrumental upload and the Step3 generation
  trigger;
* the download-link builder get_binary_file_downloader_html (lines 127-135);
  reading the temp file and base64-encoding it is external IO, so the
  base64 payload is a parameter.

Stateful Streamlit session mutation is embedded as explicit state passing:
each button handler is a function from the old WorkflowState (and the
outcomes of the external calls it makes) to the new WorkflowState.
-/

namespace Music

/-- The characters Python str.isspace holds true of, which the
no-argument str.strip removes: tab through carriage return, space, the
file/group/record/unit separators, next line, no-break space, ogham
space mark, the en-quad through hair-space range, the line and
paragraph separators, narrow no-break space, medium mathematical space
and ideographic space. -/
def pyWhitespace (c : Char) : Bool :=
  (0x09 ≤ c.toNat && c.toNat ≤ 0x0d) || c.toNat = 0x20
    || (0x1c ≤ c.toNat && c.toNat ≤ 0x1f) || c.toNat = 0x85 || c.toNat = 0xa0
    || c.toNat = 0x1680 || (0x2000 ≤ c.toNat && c.toNat ≤ 0x200a)
    || c.toNat = 0x2028 || c.toNat = 0x2029 || c.toNat = 0x202f
    || c.toNat = 0x205f || c.toNat = 0x3000

/-- Python str.strip on a list of characters: drop whitespace from both
ends. -/
def pyStripChars (l : List Char) : List Char :=
  ((l.dropWhile pyWhitespace).reverse.dropWhile pyWhitespace).reverse

/-- Helper for splitting on the newline character, accumulating the
current line in reverse. Mirrors Python str.split applied with separator
newline: the empty list of characters splits to one empty line. -/
def splitNlAux : List Char → List Char → List (List Char)
  | cur, [] => [cur.reverse]
  | cur, c :: cs =>
      if c = '\n' then cur.reverse :: splitNlAux [] cs
      else splitNlAux (c :: cur) cs

/-- Python text.split with separator newline, on character lists. -/
def splitNl (l : List Char) : List (List Char) :=
  splitNlAux [] l

/-- The list comprehension in format_lyrics_for_minimax (line 124): strip
the whole text, split into lines, strip each line, keep the non-blank
ones. -/
def keptLines (l : List Char) : List (List Char) :=
  ((splitNl (pyStripChars l)).map pyStripChars).filter (fun x => x ≠ [])

/-- format_lyrics_for_minimax (music.py lines 119-125): strip the input,
split on newline, strip each line, discard blank lines, rejoin with
newline, and wrap the block in the two-character hash sentinels. -/
def format_lyrics_for_minimax (lyrics : String) : String :=
  String.mk (['#', '#'] ++ List.intercalate ['\n'] (keptLines lyrics.data) ++ ['#', '#'])

/-- Boolean test that the second character list begins with the first. -/
def startsWithChars : List Char → List Char → Bool
  | [], _ => true
  | _ :: _, [] => false
  | p :: ps, c :: cs => p = c && startsWithChars ps cs

/-- Boolean test that the first character list occurs contiguously inside
the second. -/
def containsChars (p : List Char) : List Char → Bool
  | [] => startsWithChars p []
  | c :: cs => startsWithChars p (c :: cs) || containsChars p cs

/-- Value of one hexadecimal digit, as accepted by Python bytes.fromhex. -/
def hexDigitVal (c : Char) : Option Nat :=
  if '0' ≤ c ∧ c ≤ '9' then some (c.toNat - '0'.toNat)
  else if 'a' ≤ c ∧ c ≤ 'f' then some (c.toNat - 'a'.toNat + 10)
  else if 'A' ≤ c ∧ c ≤ 'F' then some (c.toNat - 'A'.toNat + 10)
  else none

/-- The six ASCII whitespace characters bytes.fromhex skips between
byte pairs. -/
def asciiWhitespace (c : Char) : Bool :=
  c = ' ' || c = '\t' || c = '\n' || c = '\r' || c = '\x0b' || c = '\x0c'

/-- Decode a hex string the way Python bytes.fromhex does: ASCII
whitespace may separate byte pairs, each byte is exactly two adjacent
hexadecimal digits (whitespace between the two digits of a pair is an
error), any other character is an error, and a dangling single digit is
an error, all mirroring the ValueError bytes.fromhex raises. -/
def bytesFromHexAux : List Char → Option (List Nat)
  | [] => some []
  | c :: cs =>
      if asciiWhitespace c then bytesFromHexAux cs
      else
        match cs with
        | [] => none
        | c2 :: rest =>
            match hexDigitVal c, hexDigitVal c2, bytesFromHexAux rest with
            | some h, some lo, some bs => some ((16 * h + lo) :: bs)
            | _, _, _ => none

/-- Python bytes.fromhex on a string. -/
def bytesFromHex (s : String) : Option (List Nat) :=
  bytesFromHexAux s.data

/-- The audio_setting object of generate_music (music.py lines 86-91). -/
structure AudioSetting where
  sample_rate : Nat
  bitrate : Nat
  format : String
deriving DecidableEq

/-- The default audio_setting filled in when the caller passes None
(music.py lines 86-91). -/
def defaultAudioSetting : AudioSetting :=
  { sample_rate := 44100, bitrate := 256000, format := "mp3" }

/-- The JSON payload POSTed to the music-generation endpoint (music.py
lines 93-100). refer_voice and refer_instrumental are optional because
the session state fields they are read from start out as None and are
never validated. -/
structure GenerationPayload where
  refer_voice : Option String
  refer_instrumental : Option String
  lyrics : String
  model : String
  stream : Bool
  audio_setting : AudioSetting
deriving DecidableEq

/-- The part of the generation-response JSON the script inspects:
result.data.audio. none models a body in which the data object or its
audio field is missing (the membership test on line 106 fails). -/
structure GenResponse where
  data_audio : Option String
deriving DecidableEq

/-- Outcome of the POST issued by requests.post plus raise_for_status:
either a requests.exceptions.RequestException (network error or non-2xx
status) or a 2xx response with a parsed JSON body. -/
inductive HttpOutcome where
  | networkError : HttpOutcome
  | ok : GenResponse → HttpOutcome
deriving DecidableEq

/-- The observable outcome of one generate_music call. In the Python
code every branch reports via st.error and the function returns None on
everything except success; the constructors record which branch ran and
which payload (if any) was POSTed, so no exception escapes the call. -/
inductive GenOutcome where
  | validationFailure : GenOutcome
  | requestFailed : GenerationPayload → GenOutcome
  | missingAudio : GenerationPayload → GenOutcome
  | malformedHex : GenerationPayload → GenOutcome
  | success : GenerationPayload → List Nat → GenOutcome
deriving DecidableEq

/-- The payload generate_music builds on lines 93-100, with the None
default for audio_setting replaced by the default object. -/
def genPayload (refer_voice refer_instrumental : Option String) (lyrics : String)
    (model : String) (stream : Bool) (audio_setting : Option AudioSetting) :
    GenerationPayload :=
  { refer_voice := refer_voice
    refer_instrumental := refer_instrumental
    lyrics := lyrics
    model := model
    stream := stream
    audio_setting := audio_setting.getD defaultAudioSetting }

/-- MusicProcessor.generate_music (music.py lines 77-117). The lyrics
check on line 82 runs before any request; afterwards the payload is
POSTed and the response branches are: RequestException, truthiness test
of result.data.audio (an absent field and an empty string both fail it),
and bytes.fromhex with its exception handler. -/
def generate_music (refer_voice refer_instrumental : Option String) (lyrics : String)
    (model : String) (stream : Bool) (audio_setting : Option AudioSetting)
    (http : GenerationPayload → HttpOutcome) : GenOutcome :=
  if lyrics = "" then GenOutcome.validationFailure
  else
    match http (genPayload refer_voice refer_instrumental lyrics model stream audio_setting) with
    | HttpOutcome.networkError =>
        GenOutcome.requestFailed
          (genPayload refer_voice refer_instrumental lyrics model stream audio_setting)
    | HttpOutcome.ok resp =>
        match resp.data_audio with
        | none =>
            GenOutcome.missingAudio
              (genPayload refer_voice refer_instrumental lyrics model stream audio_setting)
        | some audio_data =>
            if audio_data = "" then
              GenOutcome.missingAudio
                (genPayload refer_voice refer_instrumental lyrics model stream audio_setting)
            else
              match bytesFromHex audio_data with
              | some audio_bytes =>
                  GenOutcome.success
                    (genPayload refer_voice refer_instrumental lyrics model stream audio_setting)
                    audio_bytes
              | none =>
                  GenOutcome.malformedHex
                    (genPayload refer_voice refer_instrumental lyrics model stream audio_setting)

/-- The payload POSTed by a generate_music call, none when the
empty-lyrics validation returned before any request was issued. -/
def GenOutcome.request : GenOutcome → Option GenerationPayload
  | GenOutcome.validationFailure => none
  | GenOutcome.requestFailed p => some p
  | GenOutcome.missingAudio p => some p
  | GenOutcome.malformedHex p => some p
  | GenOutcome.success p _ => some p

/-- The Python return value of generate_music: the decoded bytes on
success, None on every failure branch. -/
def GenOutcome.resultBytes : GenOutcome → Option (List Nat)
  | GenOutcome.success _ b => some b
  | _ => none

/-- The Streamlit session state of main (music.py lines 144-151): current
step, the two stored identifiers (None until obtained) and the lyrics
text. -/
structure WorkflowState where
  step : Nat
  voice_id : Option String
  instrumental_id : Option String
  lyrics : String
deriving DecidableEq

/-- The initial session state (music.py lines 144-151). -/
def initState : WorkflowState :=
  { step := 1, voice_id := none, instrumental_id := none, lyrics := "" }

/-- The parsed JSON body returned by the upload endpoint, as consumed via
result.get on lines 176 and 195; a field absent from the body reads as
None. -/
structure UploadResponse where
  voice_id : Option String
  instrumental_id : Option String
deriving DecidableEq

/-- The Confirm IDs handler in Step1 (music.py lines 163-167): store both
entered ids and jump straight to step 3. -/
def confirmManualIds (s : WorkflowState) (voice_id instrumental_id : String) :
    WorkflowState :=
  { s with voice_id := some voice_id, instrumental_id := some instrumental_id, step := 3 }

/-- The Extract Vocals handler in Step1 (music.py lines 170-179).
downloaded is the result of download_audio_from_youtube (None on
failure); uploaded maps the downloaded file name to the upload-response
body (None models both a failed upload and a falsy empty body). On full
success the handler stores voice_id and sets the step to 2 itself. -/
def extractVocals (s : WorkflowState) (downloaded : Option String)
    (uploaded : String → Option UploadResponse) : WorkflowState :=
  match downloaded with
  | none => s
  | some file =>
      match uploaded file with
      | none => s
      | some up => { s with voice_id := up.voice_id, step := 2 }

/-- The Next Step button present in Step1 and Step2 (music.py lines
181-182 and 203-204): increment the step unconditionally. -/
def nextStep (s : WorkflowState) : WorkflowState :=
  { s with step := s.step + 1 }

/-- The Upload Instrumental handler in Step2 (music.py lines 189-201):
on full success store instrumental_id; the step is not changed here. -/
def uploadInstrumental (s : WorkflowState) (downloaded : Option String)
    (uploaded : String → Option UploadResponse) : WorkflowState :=
  match downloaded with
  | none => s
  | some file =>
      match uploaded file with
      | none => s
      | some up => { s with instrumental_id := up.instrumental_id }

/-- The widget values collected in Step3 (music.py lines 215-220): the
lyrics text area, the two mixer controls and the output-format choice. -/
structure Step3Inputs where
  lyricsText : String
  mixer_volume : Nat
  mixer_balance : String
  output_format : String
deriving DecidableEq

/-- The Generate AI Cover handler in Step3 (music.py lines 221-230):
format the lyrics and call generate_music with the stored ids, the fixed
model and stream arguments, and no audio_setting argument (so the
default is used). The mixer and output-format widgets are not passed. -/
def step3Generate (s : WorkflowState) (inp : Step3Inputs)
    (http : GenerationPayload → HttpOutcome) : GenOutcome :=
  generate_music s.voice_id s.instrumental_id
    (format_lyrics_for_minimax inp.lyricsText) "music-01" false none http

/-- get_binary_file_downloader_html (music.py lines 127-135): the anchor
tag holding the base64 data URI. Reading and base64-encoding the file is
external IO, so the encoded payload is the first argument; the MIME type
in the href is the hardcoded audio/mp3 of the f-string on line 134. -/
def get_binary_file_downloader_html (b64data : String) (basename : String)
    (file_label : String) : String :=
  "<a href=\"" ++ "data:audio/mp3;base64," ++ b64data ++ "\" download=\"" ++ basename
    ++ "\">Download " ++ file_label ++ "</a>"

/-- What Step3 shows on generation success (music.py lines 232-238): the
inline player with MIME string built from the chosen output format, and
the download link built by get_binary_file_downloader_html. -/
structure RenderedArtifact where
  playerMime : String
  downloadLink : String
deriving DecidableEq

/-- The success rendering of Step3 (music.py lines 232-238). -/
def renderGeneratedAudio (output_format : String) (b64data : String)
    (tmpBasename : String) : RenderedArtifact :=
  { playerMime := "audio/" ++ output_format
    downloadLink := get_binary_file_downloader_html b64data tmpBasename "AI Cover" }

/-- The long-filename branch of download_audio_from_youtube (music.py
lines 44-51): a filename longer than 200 characters is replaced by the
purpose tag, an underscore, the md5 hex digest of the original name, and
the mp3 suffix. The digest itself is computed by the external hashlib
library and is passed in as a function. -/
def rename_long_filename (md5hexdigest : String → String) (purpose : String)
    (filename : String) : String :=
  if 200 < filename.length then purpose ++ "_" ++ md5hexdigest filename ++ ".mp3"
  else filename

/-! ### Helper lemmas -/

theorem mem_of_mem_dropWhile {α : Type} {p : α → Bool} {a : α} :
    ∀ {l : List α}, a ∈ l.dropWhile p → a ∈ l := by
  intro l
  induction l with
  | nil => intro h; exact h
  | cons b l ih =>
      intro h
      rw [List.dropWhile_cons] at h
      by_cases hb : p b = true
      · rw [if_pos hb] at h
        exact List.mem_cons_of_mem _ (ih h)
      · rw [if_neg hb] at h
        exact h

theorem mem_dropWhile_of_neg {α : Type} {p : α → Bool} {a : α} (ha : p a = false) :
    ∀ {l : List α}, a ∈ l → a ∈ l.dropWhile p := by
  intro l
  induction l with
  | nil => intro h; exact absurd h (List.not_mem_nil a)
  | cons b l ih =>
      intro h
      rw [List.dropWhile_cons]
      by_cases hb : p b = true
      · rw [if_pos hb]
        rcases List.mem_cons.mp h with rfl | h2
        · rw [hb] at ha; exact absurd ha (by simp)
        · exact ih h2
      · rw [if_neg hb]
        exact h

theorem dropWhile_eq_nil_of_all {α : Type} {p : α → Bool} :
    ∀ {l : List α}, (∀ a ∈ l, p a = true) → l.dropWhile p = [] := by
  intro l
  induction l with
  | nil => intro _; rfl
  | cons b l ih =>
      intro h
      rw [List.dropWhile_cons, if_pos (h b (List.mem_cons_self b l))]
      exact ih (fun a ha => h a (List.mem_cons_of_mem b ha))

theorem eq_false_of_filter_nil {α : Type} {p : α → Bool} :
    ∀ {l : List α}, l.filter p = [] → ∀ a ∈ l, p a = false := by
  intro l
  induction l with
  | nil => intro _ a ha; exact absurd ha (List.not_mem_nil a)
  | cons b l ih =>
      intro h a ha
      rw [List.filter_cons] at h
      by_cases hb : p b = true
      · rw [if_pos hb] at h
        exact absurd h (by simp)
      · rw [if_neg hb] at h
        rcases List.mem_cons.mp ha with rfl | h2
        · simpa using hb
        · exact ih h a h2

theorem mem_of_mem_pyStripChars {c : Char} {l : List Char}
    (h : c ∈ pyStripChars l) : c ∈ l := by
  unfold pyStripChars at h
  rw [List.mem_reverse] at h
  have h2 := mem_of_mem_dropWhile h
  rw [List.mem_reverse] at h2
  exact mem_of_mem_dropWhile h2

theorem mem_pyStripChars_of_neg {c : Char} {l : List Char}
    (hc : pyWhitespace c = false) (h : c ∈ l) : c ∈ pyStripChars l := by
  unfold pyStripChars
  rw [List.mem_reverse]
  apply mem_dropWhile_of_neg hc
  rw [List.mem_reverse]
  exact mem_dropWhile_of_neg hc h

theorem pyStripChars_eq_nil_of_all {l : List Char}
    (h : ∀ c ∈ l, pyWhitespace c = true) : pyStripChars l = [] := by
  unfold pyStripChars
  rw [dropWhile_eq_nil_of_all h]
  rfl

theorem all_ws_of_pyStripChars_eq_nil {l : List Char}
    (h : pyStripChars l = []) : ∀ c ∈ l, pyWhitespace c = true := by
  intro c hc
  by_cases hw : pyWhitespace c = true
  · exact hw
  · have hmem : c ∈ pyStripChars l := mem_pyStripChars_of_neg (by simpa using hw) hc
    rw [h] at hmem
    exact absurd hmem (List.not_mem_nil c)

theorem splitNlAux_append_no_nl :
    ∀ (k : List Char), (∀ c ∈ k, c ≠ '\n') → ∀ (cur cs : List Char),
      splitNlAux cur (k ++ cs) = splitNlAux (k.reverse ++ cur) cs := by
  intro k
  induction k with
  | nil => intro _ cur cs; simp
  | cons c k ih =>
      intro h cur cs
      have hc : c ≠ '\n' := h c (List.mem_cons_self c k)
      rw [List.cons_append]
      simp only [splitNlAux]
      rw [if_neg hc]
      rw [ih (fun x hx => h x (List.mem_cons_of_mem c hx)) (c :: cur) cs]
      congr 1
      simp [List.append_assoc]

theorem splitNlAux_no_nl :
    ∀ (a cur : List Char), (∀ c ∈ cur, c ≠ '\n') →
      ∀ l ∈ splitNlAux cur a, ∀ c ∈ l, c ≠ '\n' := by
  intro a
  induction a with
  | nil =>
      intro cur hcur l hl c hc
      simp only [splitNlAux, List.mem_singleton] at hl
      subst hl
      exact hcur c (List.mem_reverse.mp hc)
  | cons b bs ih =>
      intro cur hcur l hl c hc
      simp only [splitNlAux] at hl
      by_cases hb : b = '\n'
      · rw [if_pos hb] at hl
        rcases List.mem_cons.mp hl with rfl | hl2
        · exact hcur c (List.mem_reverse.mp hc)
        · exact ih [] (by simp) l hl2 c hc
      · rw [if_neg hb] at hl
        refine ih (b :: cur) ?_ l hl c hc
        intro x hx
        rcases List.mem_cons.mp hx with rfl | hx2
        · exact hb
        · exact hcur x hx2

theorem exists_line_of_mem_cur :
    ∀ (a cur : List Char) {x : Char}, x ∈ cur → ∃ l ∈ splitNlAux cur a, x ∈ l := by
  intro a
  induction a with
  | nil =>
      intro cur x hx
      exact ⟨cur.reverse, by simp [splitNlAux], List.mem_reverse.mpr hx⟩
  | cons b bs ih =>
      intro cur x hx
      by_cases hb : b = '\n'
      · refine ⟨cur.reverse, ?_, List.mem_reverse.mpr hx⟩
        simp [splitNlAux, hb]
      · rcases ih (b :: cur) (List.mem_cons_of_mem b hx) with ⟨l, hl, hxl⟩
        refine ⟨l, ?_, hxl⟩
        simp only [splitNlAux]
        rw [if_neg hb]
        exact hl

theorem all_ws_of_lines_ws :
    ∀ (a cur : List Char),
      (∀ l ∈ splitNlAux cur a, ∀ c ∈ l, pyWhitespace c = true) →
      ∀ c ∈ a, pyWhitespace c = true := by
  intro a
  induction a with
  | nil => intro cur _ c hc; exact absurd hc (List.not_mem_nil c)
  | cons b bs ih =>
      intro cur h c hc
      by_cases hb : b = '\n'
      · rcases List.mem_cons.mp hc with rfl | hc2
        · rw [hb]; decide
        · refine ih [] ?_ c hc2
          intro l hl
          apply h l
          simp only [splitNlAux]
          rw [if_pos hb]
          exact List.mem_cons_of_mem _ hl
      · rcases List.mem_cons.mp hc with rfl | hc2
        · rcases exists_line_of_mem_cur bs (c :: cur) (List.mem_cons_self c cur) with ⟨l, hl, hcl⟩
          refine h l ?_ c hcl
          simp only [splitNlAux]
          rw [if_neg hb]
          exact hl
        · refine ih (b :: cur) ?_ c hc2
          intro l hl
          apply h l
          simp only [splitNlAux]
          rw [if_neg hb]
          exact hl

theorem intercalate_cons_two {α : Type} (sep x y : List α) (zs : List (List α)) :
    List.intercalate sep (x :: y :: zs) = x ++ sep ++ List.intercalate sep (y :: zs) := by
  simp [List.intercalate, List.intersperse, List.append_assoc]

theorem splitNl_intercalate :
    ∀ (ks : List (List Char)), ks ≠ [] → (∀ k ∈ ks, ∀ c ∈ k, c ≠ '\n') →
      splitNl (List.intercalate ['\n'] ks) = ks := by
  intro ks
  induction ks with
  | nil => intro h; exact absurd rfl h
  | cons k ks ih =>
      intro _ hno
      have hk : ∀ c ∈ k, c ≠ '\n' := hno k (List.mem_cons_self k ks)
      cases ks with
      | nil =>
          have h1 : List.intercalate ['\n'] [k] = k := by
            simp [List.intercalate, List.intersperse]
          rw [h1]
          unfold splitNl
          have h2 := splitNlAux_append_no_nl k hk [] []
          rw [List.append_nil, List.append_nil] at h2
          rw [h2]
          simp [splitNlAux]
      | cons k2 ks2 =>
          rw [intercalate_cons_two]
          unfold splitNl
          rw [List.append_assoc]
          rw [splitNlAux_append_no_nl k hk [] (['\n'] ++ List.intercalate ['\n'] (k2 :: ks2))]
          rw [List.append_nil, List.singleton_append]
          have h3 : splitNlAux k.reverse ('\n' :: List.intercalate ['\n'] (k2 :: ks2))
              = k.reverse.reverse :: splitNlAux [] (List.intercalate ['\n'] (k2 :: ks2)) := by
            simp [splitNlAux]
          rw [h3, List.reverse_reverse]
          congr 1
          exact ih (by simp) (fun x hx => hno x (List.mem_cons_of_mem k hx))

theorem keptLines_elem_ne_nil {l : List Char} :
    ∀ x ∈ keptLines l, x ≠ [] := by
  intro x hx
  unfold keptLines at hx
  have h := (List.mem_filter.mp hx).2
  simpa using h

theorem keptLines_elem_no_nl {l : List Char} :
    ∀ x ∈ keptLines l, ∀ c ∈ x, c ≠ '\n' := by
  intro x hx c hc
  unfold keptLines at hx
  have hx2 := (List.mem_filter.mp hx).1
  rcases List.mem_map.mp hx2 with ⟨l0, hl0, rfl⟩
  unfold splitNl at hl0
  exact splitNlAux_no_nl (pyStripChars l) [] (by simp) l0 hl0 c (mem_of_mem_pyStripChars hc)

theorem keptLines_ne_nil {l : List Char}
    (h : ∃ c ∈ l, pyWhitespace c = false) : keptLines l ≠ [] := by
  rcases h with ⟨c0, hc0, hw0⟩
  intro hk
  unfold keptLines at hk
  have hlines : ∀ l0 ∈ splitNl (pyStripChars l), pyStripChars l0 = [] := by
    intro l0 hl0
    have h2 := eq_false_of_filter_nil hk (pyStripChars l0) (List.mem_map.mpr ⟨l0, hl0, rfl⟩)
    simpa using h2
  have hws : ∀ c ∈ pyStripChars l, pyWhitespace c = true := by
    apply all_ws_of_lines_ws (pyStripChars l) []
    intro l0 hl0 c hc
    unfold splitNl at hlines
    exact all_ws_of_pyStripChars_eq_nil (hlines l0 hl0) c hc
  have hc0s : c0 ∈ pyStripChars l := mem_pyStripChars_of_neg hw0 hc0
  rw [hws c0 hc0s] at hw0
  exact absurd hw0 (by simp)

theorem keptLines_eq_nil_of_ws {l : List Char}
    (h : ∀ c ∈ l, pyWhitespace c = true) : keptLines l = [] := by
  unfold keptLines
  rw [pyStripChars_eq_nil_of_all h]
  rfl

theorem format_lyrics_data (s : String) :
    (format_lyrics_for_minimax s).data
      = ['#', '#'] ++ List.intercalate ['\n'] (keptLines s.data) ++ ['#', '#'] := rfl

theorem data_append_eq (s t : String) : (s ++ t).data = s.data ++ t.data := by
  cases s; cases t; rfl

theorem startsWithChars_append_self :
    ∀ (p t : List Char), startsWithChars p (p ++ t) = true := by
  intro p t
  induction p with
  | nil => rfl
  | cons c p ih => simp [startsWithChars, ih]

theorem containsChars_of_startsWith {p s : List Char}
    (h : startsWithChars p s = true) : containsChars p s = true := by
  cases s with
  | nil => simpa [containsChars] using h
  | cons c cs => simp [containsChars, h]

theorem containsChars_append {p s : List Char} (h : containsChars p s = true) :
    ∀ t : List Char, containsChars p (t ++ s) = true := by
  intro t
  induction t with
  | nil => simpa using h
  | cons c t ih => simp [containsChars, ih]

theorem generate_music_request_eq (refer_voice refer_instrumental : Option String)
    (lyrics model : String) (stream : Bool) (audio_setting : Option AudioSetting)
    (http : GenerationPayload → HttpOutcome) (h : lyrics ≠ "") :
    (generate_music refer_voice refer_instrumental lyrics model stream audio_setting http).request
      = some (genPayload refer_voice refer_instrumental lyrics model stream audio_setting) := by
  unfold generate_music
  rw [if_neg h]
  split
  · rfl
  · split
    · rfl
    · split
      · rfl
      · split <;> rfl

theorem format_lyrics_ne_empty (s : String) : format_lyrics_for_minimax s ≠ "" := by
  intro h
  have h2 := congrArg String.data h
  rw [format_lyrics_data] at h2
  simp at h2

/-! ### Claim theorems -/

/-- Claim C1 is false of the code: with both ids still None (a state
reachable by pressing Next Step through Steps 1 and 2 without any
upload), triggering generation in Step3 issues the request with null
references instead of stopping with a validation failure. -/
theorem generation_without_ids :
    (⟨3, none, none, ""⟩ : WorkflowState).voice_id = none
  ∧ (⟨3, none, none, ""⟩ : WorkflowState).instrumental_id = none
  ∧ (step3Generate ⟨3, none, none, ""⟩ ⟨"hello", 75, "center", "mp3"⟩
        (fun _ => HttpOutcome.networkError)).request
      = some ⟨none, none, "##hello##", "music-01", false, ⟨44100, 256000, "mp3"⟩⟩ := by
  refine ⟨rfl, rfl, ?_⟩
  decide

/-- Claim C1 (amended): generation is blocked before any request exactly
when the lyrics argument is empty; the presence of voice_id and
instrumental_id is never validated, so a call with missing ids still
issues the request, carrying null references. -/
theorem generation_validation_spec (refer_voice refer_instrumental : Option String)
    (lyrics model : String) (stream : Bool) (audio_setting : Option AudioSetting)
    (http : GenerationPayload → HttpOutcome) :
    (lyrics = "" →
        generate_music refer_voice refer_instrumental lyrics model stream audio_setting http
          = GenOutcome.validationFailure)
  ∧ (lyrics ≠ "" →
        (generate_music refer_voice refer_instrumental lyrics model stream
            audio_setting http).request
          = some (genPayload refer_voice refer_instrumental lyrics model stream audio_setting)) := by
  constructor
  · intro h
    unfold generate_music
    rw [if_pos h]
  · exact generate_music_request_eq refer_voice refer_instrumental lyrics model stream
      audio_setting http

/-- Witness for the amended C1 at concrete empty and non-empty lyrics. -/
theorem generation_validation_spec_witness :
    generate_music none none "" "music-01" false none (fun _ => HttpOutcome.networkError)
      = GenOutcome.validationFailure
  ∧ (generate_music (some "v") (some "i") "x" "music-01" false none
        (fun _ => HttpOutcome.networkError)).request
      = some (genPayload (some "v") (some "i") "x" "music-01" false none) :=
  ⟨(generation_validation_spec none none "" "music-01" false none
      (fun _ => HttpOutcome.networkError)).1 rfl,
   (generation_validation_spec (some "v") (some "i") "x" "music-01" false none
      (fun _ => HttpOutcome.networkError)).2 (by decide)⟩

/-- Claim C2 is false of the code: a fully successful Extract Vocals run
moves the step from 1 to 2 by itself, with no separate user advance. -/
theorem extract_vocals_advances :
    (extractVocals ⟨1, none, none, ""⟩ (some "voice_a.mp3")
        (fun _ => some ⟨some "vid-1", none⟩)).step = 2
  ∧ (extractVocals ⟨1, none, none, ""⟩ (some "voice_a.mp3")
        (fun _ => some ⟨some "vid-1", none⟩)).step ≠ 1 := by
  decide

/-- Claim C2 (amended): the Extract Vocals action leaves the state
unchanged when the download or the upload fails, but on full success it
stores the uploaded voice_id and advances the step to 2 automatically;
the separate Next Step action increments the step unconditionally. -/
theorem extract_vocals_auto_advance (s : WorkflowState) (d : Option String)
    (u : String → Option UploadResponse) :
    (d = none → extractVocals s d u = s)
  ∧ (∀ f, d = some f → u f = none → extractVocals s d u = s)
  ∧ (∀ f up, d = some f → u f = some up →
        extractVocals s d u = ⟨2, up.voice_id, s.instrumental_id, s.lyrics⟩)
  ∧ (nextStep s).step = s.step + 1 := by
  refine ⟨?_, ?_, ?_, rfl⟩
  · intro hd
    rw [hd]
    rfl
  · intro f hd hu
    subst hd
    simp [extractVocals, hu]
  · intro f up hd hu
    subst hd
    cases s
    simp [extractVocals, hu]

/-- Witness for the amended C2: the three outcomes of Extract Vocals at
concrete inputs. -/
theorem extract_vocals_auto_advance_witness :
    extractVocals ⟨1, none, none, ""⟩ none (fun _ => none) = ⟨1, none, none, ""⟩
  ∧ extractVocals ⟨1, none, none, ""⟩ (some "voice_b.mp3") (fun _ => none)
      = ⟨1, none, none, ""⟩
  ∧ extractVocals ⟨1, none, none, ""⟩ (some "voice_b.mp3")
        (fun _ => some ⟨some "vid-2", none⟩)
      = ⟨2, some "vid-2", none, ""⟩ :=
  ⟨(extract_vocals_auto_advance ⟨1, none, none, ""⟩ none (fun _ => none)).1 rfl,
   (extract_vocals_auto_advance ⟨1, none, none, ""⟩ (some "voice_b.mp3")
      (fun _ => none)).2.1 "voice_b.mp3" rfl rfl,
   (extract_vocals_auto_advance ⟨1, none, none, ""⟩ (some "voice_b.mp3")
      (fun _ => some ⟨some "vid-2", none⟩)).2.2.1 "voice_b.mp3" ⟨some "vid-2", none⟩ rfl rfl⟩

/-- Claim C3 is false of the code: after choosing wav in Step3, the
download link still declares the MIME type audio/mp3 and nowhere
mentions audio/wav. -/
theorem download_link_wav_counterexample :
    containsChars "audio/wav".data
      (renderGeneratedAudio "wav" "QUJD" "tmpabc.wav").downloadLink.data = false
  ∧ containsChars "audio/mp3".data
      (renderGeneratedAudio "wav" "QUJD" "tmpabc.wav").downloadLink.data = true := by
  decide

/-- Claim C3 (amended): the download link is the same string whatever
output format was chosen — its data URI always declares the MIME type
audio/mp3 — while only the inline player MIME string follows the chosen
format. -/
theorem download_link_fixed_mime (fmt b64 name : String) :
    (renderGeneratedAudio fmt b64 name).downloadLink
      = (renderGeneratedAudio "mp3" b64 name).downloadLink
  ∧ (renderGeneratedAudio fmt b64 name).playerMime = "audio/" ++ fmt
  ∧ containsChars "data:audio/mp3;base64,".data
      (renderGeneratedAudio fmt b64 name).downloadLink.data = true := by
  refine ⟨rfl, rfl, ?_⟩
  show containsChars "data:audio/mp3;base64,".data
    (get_binary_file_downloader_html b64 name "AI Cover").data = true
  unfold get_binary_file_downloader_html
  simp only [data_append_eq, List.append_assoc]
  exact containsChars_append
    (containsChars_of_startsWith (startsWithChars_append_self _ _)) _

/-- Claim C4: confirming manual ids in Step1 stores exactly the two
entered values, jumps the step straight to 3 (bypassing Step2), and
leaves the lyrics field unchanged. -/
theorem confirm_manual_ids_spec (s : WorkflowState) (v i : String) (h : s.step = 1) :
    confirmManualIds s v i = ⟨3, some v, some i, s.lyrics⟩ := by
  cases s
  rfl

/-- Witness for C4 at a concrete Step1 state and id strings. -/
theorem confirm_manual_ids_spec_witness :
    confirmManualIds ⟨1, none, none, "keep"⟩ "vocal-1" "instrumental-1"
      = ⟨3, some "vocal-1", some "instrumental-1", "keep"⟩ :=
  confirm_manual_ids_spec ⟨1, none, none, "keep"⟩ "vocal-1" "instrumental-1" rfl

/-- Claim C5: with voice_id v1, instrumental_id i1 and the two-line
lyrics input, Step3 generation formats the lyrics with the hash
sentinels and invokes generation with exactly those ids, the formatted
lyrics, model music-01, stream false and the default audio_setting of
sample rate 44100, bitrate 256000 and format mp3. -/
theorem end_to_end_generation (http : GenerationPayload → HttpOutcome) :
    format_lyrics_for_minimax "line one\nline two" = "##line one\nline two##"
  ∧ (step3Generate ⟨3, some "v1", some "i1", ""⟩
        ⟨"line one\nline two", 75, "center", "mp3"⟩ http).request
      = some ⟨some "v1", some "i1", "##line one\nline two##", "music-01", false,
          ⟨44100, 256000, "mp3"⟩⟩ := by
  constructor
  · decide
  · have hfmt : format_lyrics_for_minimax "line one\nline two"
        = "##line one\nline two##" := by decide
    have hreq := generate_music_request_eq (some "v1") (some "i1")
      (format_lyrics_for_minimax "line one\nline two") "music-01" false none http
      (format_lyrics_ne_empty _)
    show (generate_music (some "v1") (some "i1")
        (format_lyrics_for_minimax "line one\nline two") "music-01" false none http).request
      = some ⟨some "v1", some "i1", "##line one\nline two##", "music-01", false,
          ⟨44100, 256000, "mp3"⟩⟩
    rw [hreq, hfmt]
    rfl

/-- Claim C6: for every lyrics input containing at least one non-blank
line (equivalently, at least one non-whitespace character), the
formatted output starts and ends with the two-character hash sentinel
and the content between the sentinels contains no blank lines; for an
input consisting only of blank lines (every character whitespace) the
output is exactly the four-character sentinel pair. -/
theorem format_lyrics_minimax_spec (lyrics : String) :
    ((∃ c ∈ lyrics.data, pyWhitespace c = false) →
        startsWithChars ['#', '#'] (format_lyrics_for_minimax lyrics).data = true
      ∧ startsWithChars ['#', '#'] (format_lyrics_for_minimax lyrics).data.reverse = true
      ∧ ∃ mid, (format_lyrics_for_minimax lyrics).data = ['#', '#'] ++ mid ++ ['#', '#']
          ∧ ∀ l ∈ splitNl mid, l ≠ [])
  ∧ ((∀ c ∈ lyrics.data, pyWhitespace c = true) →
        format_lyrics_for_minimax lyrics = "####") := by
  constructor
  · intro h
    refine ⟨?_, ?_, ?_⟩
    · rw [format_lyrics_data]
      simp [startsWithChars]
    · rw [format_lyrics_data]
      simp [List.reverse_append, startsWithChars]
    · refine ⟨List.intercalate ['\n'] (keptLines lyrics.data), format_lyrics_data lyrics, ?_⟩
      rw [splitNl_intercalate (keptLines lyrics.data) (keptLines_ne_nil h) keptLines_elem_no_nl]
      exact keptLines_elem_ne_nil
  · intro h
    unfold format_lyrics_for_minimax
    rw [keptLines_eq_nil_of_ws h]
    rfl

/-- Witness for C6 at the concrete inputs "hi" (one non-blank line) and
a whitespace-only input mixing the space, file-separator, newline and
no-break-space characters. -/
theorem format_lyrics_minimax_spec_witness :
    (startsWithChars ['#', '#'] (format_lyrics_for_minimax "hi").data = true
      ∧ startsWithChars ['#', '#'] (format_lyrics_for_minimax "hi").data.reverse = true
      ∧ ∃ mid, (format_lyrics_for_minimax "hi").data = ['#', '#'] ++ mid ++ ['#', '#']
          ∧ ∀ l ∈ splitNl mid, l ≠ [])
  ∧ format_lyrics_for_minimax " \x1c\n\xa0" = "####" :=
  ⟨(format_lyrics_minimax_spec "hi").1 (by decide),
   (format_lyrics_minimax_spec " \x1c\n\xa0").2 (by decide)⟩

/-- Claim C7: a downloaded filename longer than 200 characters is
renamed to the purpose tag, an underscore, the md5 hex digest of the
original full name, and the mp3 suffix; the renaming is a function of
the original name, so two calls producing the same original name yield
the same hashed name. -/
theorem long_filename_rename_spec (md5hexdigest : String → String)
    (purpose f g : String) (h : 200 < f.length) (hfg : f = g) :
    rename_long_filename md5hexdigest purpose f
      = purpose ++ "_" ++ md5hexdigest f ++ ".mp3"
  ∧ rename_long_filename md5hexdigest purpose f
      = rename_long_filename md5hexdigest purpose g := by
  subst hfg
  unfold rename_long_filename
  exact ⟨if_pos h, rfl⟩

set_option maxRecDepth 8000 in
/-- Witness for C7 at a concrete 201-character filename and a concrete
digest function. -/
theorem long_filename_rename_spec_witness :
    rename_long_filename (fun _ => "9e107d9d372bb6826bd81d3542a419d6") "voice"
        (String.mk (List.replicate 201 'a'))
      = "voice" ++ "_" ++ "9e107d9d372bb6826bd81d3542a419d6" ++ ".mp3"
  ∧ rename_long_filename (fun _ => "9e107d9d372bb6826bd81d3542a419d6") "voice"
        (String.mk (List.replicate 201 'a'))
      = rename_long_filename (fun _ => "9e107d9d372bb6826bd81d3542a419d6") "voice"
        (String.mk (List.replicate 201 'a')) :=
  long_filename_rename_spec (fun _ => "9e107d9d372bb6826bd81d3542a419d6") "voice"
    (String.mk (List.replicate 201 'a')) (String.mk (List.replicate 201 'a'))
    (by decide) rfl

/-- Claim C8: on a 2xx response, a hex string 68656c6c6f under data.audio
decodes to exactly the five bytes of the word hello; a response missing
data.audio reports the missing field and returns no bytes; a non-hex
data.audio reports the conversion failure and returns no bytes. Each
case is an ordinary return value of the embedded total function, so no
exception escapes the call boundary. -/
theorem generate_music_response_handling (refer_voice refer_instrumental : Option String)
    (lyrics model : String) (stream : Bool) (h : lyrics ≠ "") :
    generate_music refer_voice refer_instrumental lyrics model stream none
        (fun _ => HttpOutcome.ok ⟨some "68656c6c6f"⟩)
      = GenOutcome.success (genPayload refer_voice refer_instrumental lyrics model stream none)
          [104, 101, 108, 108, 111]
  ∧ ([104, 101, 108, 108, 111] : List Nat) = "hello".data.map Char.toNat
  ∧ generate_music refer_voice refer_instrumental lyrics model stream none
        (fun _ => HttpOutcome.ok ⟨none⟩)
      = GenOutcome.missingAudio (genPayload refer_voice refer_instrumental lyrics model stream none)
  ∧ (generate_music refer_voice refer_instrumental lyrics model stream none
        (fun _ => HttpOutcome.ok ⟨none⟩)).resultBytes = none
  ∧ generate_music refer_voice refer_instrumental lyrics model stream none
        (fun _ => HttpOutcome.ok ⟨some "zz"⟩)
      = GenOutcome.malformedHex (genPayload refer_voice refer_instrumental lyrics model stream none)
  ∧ (generate_music refer_voice refer_instrumental lyrics model stream none
        (fun _ => HttpOutcome.ok ⟨some "zz"⟩)).resultBytes = none := by
  refine ⟨?_, by decide, ?_, ?_, ?_, ?_⟩ <;>
    (unfold generate_music; rw [if_neg h]; try rfl)

/-- Witness for C8 at concrete non-empty lyrics and ids. -/
theorem generate_music_response_handling_witness :
    generate_music (some "v1") (some "i1") "##x##" "music-01" false none
        (fun _ => HttpOutcome.ok ⟨some "68656c6c6f"⟩)
      = GenOutcome.success (genPayload (some "v1") (some "i1") "##x##" "music-01" false none)
          [104, 101, 108, 108, 111]
  ∧ generate_music (some "v1") (some "i1") "##x##" "music-01" false none
        (fun _ => HttpOutcome.ok ⟨none⟩)
      = GenOutcome.missingAudio (genPayload (some "v1") (some "i1") "##x##" "music-01" false none)
  ∧ generate_music (some "v1") (some "i1") "##x##" "music-01" false none
        (fun _ => HttpOutcome.ok ⟨some "zz"⟩)
      = GenOutcome.malformedHex (genPayload (some "v1") (some "i1") "##x##" "music-01" false none) :=
  ⟨(generate_music_response_handling (some "v1") (some "i1") "##x##" "music-01" false
      (by decide)).1,
   (generate_music_response_handling (some "v1") (some "i1") "##x##" "music-01" false
      (by decide)).2.2.1,
   (generate_music_response_handling (some "v1") (some "i1") "##x##" "music-01" false
      (by decide)).2.2.2.2.1⟩

/-- Claim C9: the generation call (and hence the request payload) is
independent of the Step3 mixer controls — two runs whose inputs agree on
the lyrics text and the output format but differ arbitrarily in mixer
volume and mixer balance make identical generation calls, so neither
mixer value appears in any request field. -/
theorem mixer_not_in_request (s : WorkflowState) (a b : Step3Inputs)
    (http : GenerationPayload → HttpOutcome)
    (hl : a.lyricsText = b.lyricsText) (_hf : a.output_format = b.output_format) :
    step3Generate s a http = step3Generate s b http := by
  unfold step3Generate
  rw [hl]

/-- Witness for C9 at two concrete Step3 inputs differing only in the
mixer values. -/
theorem mixer_not_in_request_witness :
    step3Generate initState ⟨"la la", 0, "left", "mp3"⟩ (fun _ => HttpOutcome.networkError)
      = step3Generate initState ⟨"la la", 100, "right", "mp3"⟩
          (fun _ => HttpOutcome.networkError) :=
  mixer_not_in_request initState ⟨"la la", 0, "left", "mp3"⟩ ⟨"la la", 100, "right", "mp3"⟩
    (fun _ => HttpOutcome.networkError) rfl rfl

/-- Claim C10: the formatted lyrics always have length at least four and
are never empty, so the empty-lyrics validation branch of generate_music
is unreachable from the Step3 trigger and the generation request is
issued for every state and every Step3 input, including lyrics of only
blank lines. -/
theorem step3_request_always_issued (s : WorkflowState) (inp : Step3Inputs)
    (http : GenerationPayload → HttpOutcome) :
    4 ≤ (format_lyrics_for_minimax inp.lyricsText).data.length
  ∧ format_lyrics_for_minimax inp.lyricsText ≠ ""
  ∧ step3Generate s inp http ≠ GenOutcome.validationFailure
  ∧ (step3Generate s inp http).request ≠ none := by
  have hreq := generate_music_request_eq s.voice_id s.instrumental_id
    (format_lyrics_for_minimax inp.lyricsText) "music-01" false none http
    (format_lyrics_ne_empty inp.lyricsText)
  refine ⟨?_, format_lyrics_ne_empty inp.lyricsText, ?_, ?_⟩
  · rw [format_lyrics_data]
    simp
  · intro hv
    unfold step3Generate at hv
    rw [hv] at hreq
    simp [GenOutcome.request] at hreq
  · unfold step3Generate
    rw [hreq]
    simp

end Music
